import Mathlib

/-!
Shallow embedding of the fleet / work-order management application
(vehicle lifecycle, work-order lifecycle, row-level authorization policy,
auth store), translated from the TypeScript and SQL sources, together with
theorems settling the specification claims about them.
-/

namespace Fleet

/-- Vehicle status, from the `status` union type in VehicleModal.tsx. -/
inductive VehicleStatus
  | available
  | assigned
  | out_of_service
  deriving DecidableEq, Repr

/-- Work-order status, from the `status` union type in WorkOrders.tsx. -/
inductive WOStatus
  | pending
  | in_progress
  | completed
  | cancelled
  deriving DecidableEq, Repr

/-- Work-order priority, from the `priority` union type in WorkOrders.tsx. -/
inductive WOPriority
  | low
  | normal
  | high
  | urgent
  deriving DecidableEq, Repr

/-- Profile role, from the `role` union type in authStore.ts and Settings. -/
inductive Role
  | admin
  | user
  deriving DecidableEq, Repr

/-- A user profile row (profiles table), fields from authStore.ts. -/
structure Profile where
  id : String
  role : Role
  full_name : String
  badge_number : Option String
  deriving DecidableEq, Repr

/-- A vehicle row, fields from the vehicle interface in VehicleModal.tsx. -/
structure Vehicle where
  id : String
  unit_number : String
  make : String
  model : String
  year : Nat
  status : VehicleStatus
  assigned_to : Option String
  current_location : Option String
  notes : Option String
  deriving DecidableEq, Repr

/-- A work-order row, fields from the WorkOrder interface in WorkOrders.tsx
(`mileage` is a string in the form state of WorkOrderModal.tsx; `updated_at`
is optional because the insert in WorkOrderModal.tsx does not set it). -/
structure WorkOrder where
  id : String
  vehicle_id : String
  created_by : String
  status : WOStatus
  description : String
  priority : WOPriority
  location : String
  mileage : String
  resolved_at : Option String
  resolved_by : Option String
  resolution_notes : Option String
  updated_at : Option String
  work_order_number : Nat
  deriving DecidableEq, Repr

/-! ## Work-order status update (WorkOrders.tsx, handleUpdateStatus) -/

/-- JS `s || null`: the empty string is falsy and becomes null. -/
def jsStringOrNull (s : String) : Option String :=
  if s = "" then none else some s

/-- The update payload written by handleUpdateStatus
(src/src/pages/WorkOrders.tsx lines 90-99). -/
structure WOUpdatePayload where
  status : WOStatus
  resolved_at : Option String
  resolved_by : Option String
  resolution_notes : Option String
  updated_at : Option String
  deriving DecidableEq, Repr

/-- Embedding of handleUpdateStatus (WorkOrders.tsx lines 85-112):
`resolved_at` is now only when the new status is completed, `resolved_by`
is the current authenticated user id only when completed, and
`resolution_notes` is `updateNotes || null` regardless of the status. -/
def handleUpdateStatus (newStatus : WOStatus) (updateNotes : String)
    (currentUser : Option String) (now : String) : WOUpdatePayload where
  status := newStatus
  resolved_at := if newStatus = .completed then some now else none
  resolved_by := if newStatus = .completed then currentUser else none
  resolution_notes := jsStringOrNull updateNotes
  updated_at := some now

/-- Applying a status-update payload to the matched work-order row. -/
def applyWOUpdate (p : WOUpdatePayload) (o : WorkOrder) : WorkOrder :=
  { o with
    status := p.status
    resolved_at := p.resolved_at
    resolved_by := p.resolved_by
    resolution_notes := p.resolution_notes
    updated_at := p.updated_at }

/-- The work order produced by handleUpdateStatus on row `o`. -/
def updatedOrder (newStatus : WOStatus) (updateNotes : String)
    (currentUser : Option String) (now : String) (o : WorkOrder) : WorkOrder :=
  applyWOUpdate (handleUpdateStatus newStatus updateNotes currentUser now) o

/-! ## Work-order completion (WorkOrders.tsx, handleCompleteWorkOrder) -/

/-- The work-order update written by handleCompleteWorkOrder
(WorkOrders.tsx lines 120-128): status completed, `resolved_at` = now,
`resolved_by` = `session?.user?.id || null`; `resolution_notes` untouched. -/
def completeWOOrderUpdate (sessionUser : Option String) (now : String)
    (o : WorkOrder) : WorkOrder :=
  { o with
    status := .completed
    resolved_at := some now
    resolved_by := sessionUser
    updated_at := some now }

/-- The vehicle update written by handleCompleteWorkOrder
(WorkOrders.tsx lines 134-139): only the status field is set to available;
assigned_to, current_location and notes are left as they were. -/
def completeWOVehicleUpdate (v : Vehicle) : Vehicle :=
  { v with status := .available }

/-- Embedding of handleCompleteWorkOrder (WorkOrders.tsx lines 114-152):
the pair of rows written, the matched work order and the vehicle matched by
`workOrder.vehicle_id`. -/
def handleCompleteWorkOrder (o : WorkOrder) (v : Vehicle)
    (sessionUser : Option String) (now : String) : WorkOrder × Vehicle :=
  (completeWOOrderUpdate sessionUser now o, completeWOVehicleUpdate v)

/-! ## Work-order UI transitions (WorkOrders.tsx render) -/

/-- The three targets offered by the Update Status modal
(WorkOrders.tsx lines 407-426). -/
def updateStatusTargets : List WOStatus :=
  [.in_progress, .completed, .cancelled]

/-- The Update Status button renders only for admins on orders with
status pending (WorkOrders.tsx line 303). -/
def canOpenUpdateStatus (s : WOStatus) : Bool :=
  s == .pending

/-- The Complete Work Order button renders for admins on every order whose
status is not completed (WorkOrders.tsx line 314), cancelled included. -/
def canCompleteWorkOrder (s : WOStatus) : Bool :=
  s != .completed

/-- One admin-reachable status transition of the work-order UI: either the
Update Status modal (pending orders, three targets) or the Complete Work
Order button (any non-completed order, target completed). -/
def woTransition (s t : WOStatus) : Bool :=
  (canOpenUpdateStatus s && updateStatusTargets.contains t) ||
    (canCompleteWorkOrder s && t == .completed)

/-! ## Work-order creation (WorkOrderModal.tsx, handleSubmit) -/

/-- Modelled from the spec: the work_orders table schema (and so the default
value of the status column, which the insert in WorkOrderModal.tsx does not
set) is not among the source files; per the spec a newly created work order
has status = pending. -/
def defaultNewWorkOrderStatus : WOStatus := .pending

/-- The form state of WorkOrderModal.tsx. -/
structure WorkOrderForm where
  description : String
  priority : WOPriority
  location : String
  mileage : String
  deriving DecidableEq, Repr

/-- Embedding of the read in WorkOrderModal.handleSubmit (lines 36-46):
select work_order_number ordered descending with limit 1, i.e. the largest
existing number, or 0 when the table is empty. -/
def lastWorkOrderNumber (orders : List WorkOrder) : Nat :=
  (orders.map fun o => o.work_order_number).foldr max 0

/-- Embedding of the insert in WorkOrderModal.handleSubmit (lines 45-58):
the new row carries the incremented number; status and the resolution
fields come from the table defaults. -/
def createWorkOrder (orders : List WorkOrder) (vehicleId : String)
    (f : WorkOrderForm) (creator : String) (newId : String) : WorkOrder where
  id := newId
  vehicle_id := vehicleId
  created_by := creator
  status := defaultNewWorkOrderStatus
  description := f.description
  priority := f.priority
  location := f.location
  mileage := f.mileage
  resolved_at := none
  resolved_by := none
  resolution_notes := none
  updated_at := none
  work_order_number := lastWorkOrderNumber orders + 1

/-! ## Vehicle form submission (VehicleModal.tsx, handleSubmit) -/

/-- The form state of VehicleModal.tsx: the side fields are plain strings
in the form, with the empty string standing for an untouched control. -/
structure VehicleForm where
  unit_number : String
  make : String
  model : String
  year : Nat
  status : VehicleStatus
  assigned_to : String
  current_location : String
  notes : String
  deriving DecidableEq, Repr

/-- The normalized `vehicleData` object built at the top of
VehicleModal.handleSubmit (lines 95-100): assigned_to survives only for
status assigned, current_location only for out_of_service, notes only for
assigned or out_of_service; every other side field becomes null. -/
structure VehicleData where
  unit_number : String
  make : String
  model : String
  year : Nat
  status : VehicleStatus
  assigned_to : Option String
  current_location : Option String
  notes : Option String
  deriving DecidableEq, Repr

/-- Embedding of the normalization in VehicleModal.handleSubmit
(lines 95-100). -/
def normalizeVehicleData (f : VehicleForm) : VehicleData where
  unit_number := f.unit_number
  make := f.make
  model := f.model
  year := f.year
  status := f.status
  assigned_to := if f.status = .assigned then some f.assigned_to else none
  current_location :=
    if f.status = .out_of_service then some f.current_location else none
  notes :=
    if f.status = .out_of_service ∨ f.status = .assigned then some f.notes
    else none

/-- The update payload written on the existing-vehicle path
(VehicleModal.tsx lines 104-112): only the four status-related fields,
taken from the normalized data. -/
structure VehicleUpdatePayload where
  status : VehicleStatus
  assigned_to : Option String
  current_location : Option String
  notes : Option String
  deriving DecidableEq, Repr

/-- The update payload of VehicleModal.handleSubmit for an existing
vehicle. -/
def vehicleModalUpdatePayload (f : VehicleForm) : VehicleUpdatePayload :=
  { status := (normalizeVehicleData f).status
    assigned_to := (normalizeVehicleData f).assigned_to
    current_location := (normalizeVehicleData f).current_location
    notes := (normalizeVehicleData f).notes }

/-- Applying the VehicleModal update payload to the matched vehicle row. -/
def applyVehicleModalUpdate (f : VehicleForm) (v : Vehicle) : Vehicle :=
  { v with
    status := (vehicleModalUpdatePayload f).status
    assigned_to := (vehicleModalUpdatePayload f).assigned_to
    current_location := (vehicleModalUpdatePayload f).current_location
    notes := (vehicleModalUpdatePayload f).notes }

/-- Arguments of the update_vehicle_status remote procedure call
(VehicleModal.tsx lines 118-122), which records the status-history entry. -/
structure StatusRpcArgs where
  vehicle_id : String
  new_status : VehicleStatus
  notes : String
  deriving DecidableEq, Repr

/-- The network writes issued by VehicleModal.handleSubmit on the
existing-vehicle path: the vehicles update, and the status RPC exactly when
the status changed (lines 117-124). -/
structure VehicleUpdateWrites where
  vehicleUpdate : VehicleUpdatePayload
  statusRpc : Option StatusRpcArgs
  deriving DecidableEq, Repr

/-- HTML constraint validation of the status-conditional controls: the
assignee select carries `required` when status = assigned (VehicleModal.tsx
line 283) and the location input carries `required` when status =
out_of_service (line 304); the browser blocks submission while a rendered
required control is empty, so handleSubmit only ever runs on forms passing
this check. -/
def sideFieldsPresent (f : VehicleForm) : Bool :=
  (f.status != .assigned || f.assigned_to != "") &&
    (f.status != .out_of_service || f.current_location != "")

/-- The submission pipeline for editing an existing vehicle: browser
required-field validation, then handleSubmit's vehicles update and its
conditional update_vehicle_status RPC (VehicleModal.tsx lines 89-130).
A blocked submission issues no network call at all. -/
def submitVehicleUpdate (f : VehicleForm) (v : Vehicle) :
    Option VehicleUpdateWrites :=
  if sideFieldsPresent f then
    some
      { vehicleUpdate := vehicleModalUpdatePayload f
        statusRpc :=
          if v.status ≠ f.status then some ⟨v.id, f.status, f.notes⟩
          else none }
  else none

/-- The side-field consistency condition stated for vehicles: available
means both references null, assigned means an assignee and no location,
out_of_service means a location and no assignee, and notes only for
assigned or out_of_service. -/
def sideFieldsConsistent (status : VehicleStatus)
    (assigned_to current_location notes : Option String) : Prop :=
  (status = .available → assigned_to = none ∧ current_location = none) ∧
    (status = .assigned → assigned_to ≠ none ∧ current_location = none) ∧
    (status = .out_of_service → current_location ≠ none ∧ assigned_to = none) ∧
    (status = .available → notes = none)

instance (status : VehicleStatus)
    (assigned_to current_location notes : Option String) :
    Decidable (sideFieldsConsistent status assigned_to current_location notes) := by
  unfold sideFieldsConsistent
  infer_instance

/-! ## Settings page (src/unnamed/part_001) -/

/-- The vehicle fields edited in the Settings fleet-management tab. -/
structure SettingsVehicle where
  id : String
  unit_number : String
  make : String
  model : String
  year : Nat
  deriving DecidableEq, Repr

/-- Embedding of Settings.handleUpdateVehicle (src/unnamed/part_001 lines
297-317) applied to the matched vehicle row: the update payload sets
unit_number, make, model and year and nothing else. -/
def settingsUpdateVehicle (e : SettingsVehicle) (v : Vehicle) : Vehicle :=
  { v with
    unit_number := e.unit_number
    make := e.make
    model := e.model
    year := e.year }

/-! ## Row-level authorization policies (src/unnamed/part_000) -/

/-- Embedding of the is_admin SQL helper (src/unnamed/part_000 lines
14-22): true when a profiles row with the given id and role admin exists. -/
def is_admin (profiles : List Profile) (uid : String) : Bool :=
  profiles.any fun p => p.id == uid && p.role == .admin

/-- The three tables whose policies in src/unnamed/part_000 are
row-independent (the profiles policies also depend on the row and are not
needed by the claims). -/
inductive DBTable
  | vehicles
  | vehicle_status_history
  | work_orders
  deriving DecidableEq, Repr

/-- A data-access operation kind. -/
inductive DBOp
  | select
  | insert
  | update
  | delete
  deriving DecidableEq, Repr

/-- Embedding of the row-level security policies of src/unnamed/part_000
(lines 40-76), with `requester = none` for an unauthenticated caller (all
policies are `TO authenticated`): vehicles are readable by everyone
authenticated and modifiable (FOR ALL) only under is_admin; status history
and work orders are readable and insertable by everyone authenticated;
work-order updates require is_admin; operations with no policy are
denied. -/
def policyAllows (profiles : List Profile) (requester : Option String)
    (t : DBTable) (op : DBOp) : Bool :=
  match requester with
  | none => false
  | some u =>
    match t, op with
    | .vehicles, .select => true
    | .vehicles, _ => is_admin profiles u
    | .vehicle_status_history, .select => true
    | .vehicle_status_history, .insert => true
    | .vehicle_status_history, _ => false
    | .work_orders, .select => true
    | .work_orders, .insert => true
    | .work_orders, .update => is_admin profiles u
    | .work_orders, .delete => false

/-! ## Auth store (src/src/stores/authStore.ts) -/

/-- The zustand store state: session, profile, isAdmin. -/
structure AuthState where
  session : Option String
  profile : Option Profile
  isAdmin : Bool
  deriving DecidableEq, Repr

/-- The store's initial state (authStore.ts lines 22-24). -/
def authInitialState : AuthState :=
  { session := none, profile := none, isAdmin := false }

/-- setSession (authStore.ts line 25): replaces only the session. -/
def authSetSession (s : Option String) (st : AuthState) : AuthState :=
  { st with session := s }

/-- setProfile (authStore.ts lines 26-29): stores the profile and
recomputes isAdmin as `profile?.role === 'admin'`. -/
def authSetProfile (p : Option Profile) (st : AuthState) : AuthState :=
  { st with
    profile := p
    isAdmin := match p with | some q => q.role == .admin | none => false }

/-- signOut (authStore.ts lines 30-33): clears session, profile and
isAdmin together. -/
def authSignOut (_st : AuthState) : AuthState :=
  { session := none, profile := none, isAdmin := false }

/-- The store invariant: isAdmin holds exactly when a stored profile has
role admin. -/
def authStoreInvariant (st : AuthState) : Prop :=
  st.isAdmin = true ↔ ∃ p, st.profile = some p ∧ p.role = .admin

/-! ## Sample data used by witnesses and counterexamples -/

/-- A sample out-of-service vehicle in the shop. -/
def shopVehicle : Vehicle where
  id := "veh-1"
  unit_number := "7"
  make := "Ford"
  model := "Explorer"
  year := 2020
  status := .out_of_service
  assigned_to := none
  current_location := some "Shop A"
  notes := some "Brake issue"

/-- A sample pending work order on that vehicle. -/
def sampleOrder : WorkOrder where
  id := "wo-1"
  vehicle_id := "veh-1"
  created_by := "user-1"
  status := .pending
  description := "Brake issue"
  priority := .high
  location := "Shop A"
  mileage := "12000"
  resolved_at := none
  resolved_by := none
  resolution_notes := none
  updated_at := none
  work_order_number := 1

/-- A sample admin profile. -/
def sampleAdminProfile : Profile where
  id := "admin-1"
  role := .admin
  full_name := "Ada Admin"
  badge_number := none

/-- A sample work-order creation form. -/
def sampleWOForm : WorkOrderForm where
  description := "Brake issue"
  priority := .high
  location := "Shop A"
  mileage := "12000"

/-- A vehicle form asking for status assigned with no assignee chosen. -/
def invalidAssignForm : VehicleForm where
  unit_number := "7"
  make := "Ford"
  model := "Explorer"
  year := 2020
  status := .assigned
  assigned_to := ""
  current_location := ""
  notes := ""

/-! ## Helper lemmas -/

/-- Every member of a list of naturals is bounded by its max fold. -/
theorem le_foldr_max_of_mem {l : List Nat} {x : Nat} (hx : x ∈ l) :
    x ≤ l.foldr max 0 := by
  induction l with
  | nil => cases hx
  | cons a t ih =>
    rcases List.mem_cons.mp hx with h | h
    · subst h; exact Nat.le_max_left _ _
    · exact le_trans (ih h) (Nat.le_max_right _ _)

/-- The max fold of a nonempty list of naturals is one of its members. -/
theorem foldr_max_mem {l : List Nat} (hl : l ≠ []) : l.foldr max 0 ∈ l := by
  induction l with
  | nil => exact absurd rfl hl
  | cons a t ih =>
    cases t with
    | nil => simp
    | cons b u =>
      have hmem := ih (by simp)
      show max a ((b :: u).foldr max 0) ∈ a :: b :: u
      rcases Nat.le_total a ((b :: u).foldr max 0) with h | h
      · rw [max_eq_right h]
        exact List.mem_cons_of_mem a hmem
      · rw [max_eq_left h]
        exact List.mem_cons_self a _

/-! ## Claim C1: resolution fields versus status in UpdateStatus -/

/-- C1 counterexample: UpdateStatus does not clear resolution_notes on a
non-completed status (marking an order in progress with notes leaves
resolution_notes non-null), and does not stamp resolution_notes on a
completed status when the submitted notes are empty; so the resolution
fields are not non-null exactly when the status is completed. -/
theorem c1_resolution_fields_counterexample :
    ((updatedOrder .in_progress "parts ordered" (some "admin-1") "t1"
        sampleOrder).status ≠ .completed ∧
      (updatedOrder .in_progress "parts ordered" (some "admin-1") "t1"
        sampleOrder).resolution_notes ≠ none) ∧
    ((updatedOrder .completed "" (some "admin-1") "t1"
        sampleOrder).status = .completed ∧
      (updatedOrder .completed "" (some "admin-1") "t1"
        sampleOrder).resolution_notes = none) := by
  decide

/-- C1 (amended): UpdateStatus stamps resolved_at = now and resolved_by =
the acting user exactly when the new status is completed and clears both
otherwise, while resolution_notes is set to the submitted notes when
non-empty and to null when empty, independent of the new status. -/
theorem c1_update_status_fields (newStatus : WOStatus) (updateNotes : String)
    (currentUser : Option String) (now : String) (o : WorkOrder) :
    (updatedOrder newStatus updateNotes currentUser now o).status = newStatus ∧
    ((updatedOrder newStatus updateNotes currentUser now o).resolved_at ≠ none ↔
      newStatus = .completed) ∧
    (newStatus = .completed →
      (updatedOrder newStatus updateNotes currentUser now o).resolved_at =
          some now ∧
        (updatedOrder newStatus updateNotes currentUser now o).resolved_by =
          currentUser) ∧
    (newStatus ≠ .completed →
      (updatedOrder newStatus updateNotes currentUser now o).resolved_at =
          none ∧
        (updatedOrder newStatus updateNotes currentUser now o).resolved_by =
          none) ∧
    (updateNotes ≠ "" →
      (updatedOrder newStatus updateNotes currentUser now o).resolution_notes =
        some updateNotes) ∧
    (updateNotes = "" →
      (updatedOrder newStatus updateNotes currentUser now o).resolution_notes =
        none) := by
  by_cases hc : newStatus = .completed <;>
    by_cases hn : updateNotes = "" <;>
      simp [updatedOrder, applyWOUpdate, handleUpdateStatus, jsStringOrNull,
        hc, hn]

/-- C1 witness: the amended theorem evaluated on a concrete completed
update. -/
theorem c1_update_status_fields_witness :
    (updatedOrder .completed "done" (some "admin-1") "t1"
        sampleOrder).resolved_at = some "t1" ∧
      (updatedOrder .completed "done" (some "admin-1") "t1"
        sampleOrder).resolved_by = some "admin-1" :=
  ((c1_update_status_fields .completed "done" (some "admin-1") "t1"
      sampleOrder).2.2.1 rfl)

/-! ## Claim C2: side-field consistency at every vehicle persistence -/

/-- C2 counterexample: completing a work order persists a vehicle update
that sets status = available while leaving current_location and notes as
they were, so the persisted row of an out-of-service vehicle violates the
side-field consistency, and this persistence applies no normalization. -/
theorem c2_consistency_counterexample :
    (completeWOVehicleUpdate shopVehicle).status = .available ∧
      (completeWOVehicleUpdate shopVehicle).current_location = some "Shop A" ∧
      ¬ sideFieldsConsistent (completeWOVehicleUpdate shopVehicle).status
          (completeWOVehicleUpdate shopVehicle).assigned_to
          (completeWOVehicleUpdate shopVehicle).current_location
          (completeWOVehicleUpdate shopVehicle).notes := by
  decide

/-- C2 (amended): every vehicle persisted through the vehicle form
(VehicleModal.handleSubmit), by the create insert or by the update payload,
has side fields consistent with its status, the normalization being applied
before either persistence; the vehicle update issued by
handleCompleteWorkOrder, however, writes only status = available and leaves
the side fields untouched, so it is not normalized. -/
theorem c2_vehicle_modal_normalized (f : VehicleForm) (v : Vehicle) :
    (sideFieldsConsistent (normalizeVehicleData f).status
        (normalizeVehicleData f).assigned_to
        (normalizeVehicleData f).current_location
        (normalizeVehicleData f).notes ∧
      sideFieldsConsistent (vehicleModalUpdatePayload f).status
        (vehicleModalUpdatePayload f).assigned_to
        (vehicleModalUpdatePayload f).current_location
        (vehicleModalUpdatePayload f).notes) ∧
    ((completeWOVehicleUpdate v).status = .available ∧
      (completeWOVehicleUpdate v).assigned_to = v.assigned_to ∧
      (completeWOVehicleUpdate v).current_location = v.current_location ∧
      (completeWOVehicleUpdate v).notes = v.notes) := by
  obtain ⟨un, mk, md, yr, st, a, loc, nt⟩ := f
  cases st <;>
    simp [normalizeVehicleData, vehicleModalUpdatePayload,
      sideFieldsConsistent, completeWOVehicleUpdate]

/-! ## Claim C3: work-order creation numbering and initial status -/

/-- C3: a created work order has status pending, its number exceeds every
existing number, equals an existing number plus one when the table is
nonempty, and equals 1 when the table is empty. -/
theorem c3_create_work_order (orders : List WorkOrder) (vehicleId : String)
    (f : WorkOrderForm) (creator newId : String) :
    (createWorkOrder orders vehicleId f creator newId).status = .pending ∧
    (∀ o ∈ orders,
      o.work_order_number <
        (createWorkOrder orders vehicleId f creator newId).work_order_number) ∧
    (orders ≠ [] → ∃ o ∈ orders,
      (createWorkOrder orders vehicleId f creator newId).work_order_number =
        o.work_order_number + 1) ∧
    (orders = [] →
      (createWorkOrder orders vehicleId f creator newId).work_order_number =
        1) := by
  refine ⟨rfl, ?_, ?_, ?_⟩
  · intro o ho
    have hmem : o.work_order_number ∈
        orders.map fun o => o.work_order_number :=
      List.mem_map_of_mem _ ho
    have := le_foldr_max_of_mem hmem
    simpa [createWorkOrder, lastWorkOrderNumber] using Nat.lt_succ_of_le this
  · intro hne
    have hmap : (orders.map fun o => o.work_order_number) ≠ [] := by
      simpa using hne
    have hmem := foldr_max_mem hmap
    rcases List.mem_map.mp hmem with ⟨o, ho, hval⟩
    exact ⟨o, ho, by simp [createWorkOrder, lastWorkOrderNumber, hval]⟩
  · intro he
    subst he
    rfl

/-- C3 witness: creating against the empty table yields number 1 and
status pending. -/
theorem c3_create_work_order_witness :
    (createWorkOrder [] "veh-1" sampleWOForm "user-1" "wo-1").status =
        .pending ∧
      (createWorkOrder []
        "veh-1" sampleWOForm "user-1" "wo-1").work_order_number = 1 :=
  ⟨(c3_create_work_order [] "veh-1" sampleWOForm "user-1" "wo-1").1,
    (c3_create_work_order [] "veh-1" sampleWOForm "user-1" "wo-1").2.2.2 rfl⟩

/-! ## Claim C4: terminal statuses of the work-order state machine -/

/-- C4 counterexample: the cancelled status is not terminal, since the
Complete Work Order action is offered for every order whose status is not
completed, and it sets the status to completed; so an operation does change
a cancelled work order's status. -/
theorem c4_cancelled_not_terminal :
    woTransition .cancelled .completed = true ∧
      (completeWOOrderUpdate (some "admin-1") "t1"
          { sampleOrder with status := .cancelled }).status = .completed := by
  decide

/-- C4 (amended): completed is the only terminal status; the reachable
transitions are exactly pending to in_progress, completed or cancelled
(Update Status modal) and any non-completed status, cancelled included, to
completed (Complete Work Order button). -/
theorem c4_transition_characterization (s t : WOStatus) :
    woTransition .completed t = false ∧
      (woTransition s t = true ↔
        (s = .pending ∧
            (t = .in_progress ∨ t = .completed ∨ t = .cancelled)) ∨
          (s ≠ .completed ∧ t = .completed)) := by
  cases s <;> cases t <;> decide

/-- C4 witness: the amended characterization evaluated on a concrete
transition. -/
theorem c4_transition_characterization_witness :
    woTransition .pending .in_progress = true :=
  (c4_transition_characterization .pending .in_progress).2.mpr
    (Or.inl ⟨rfl, Or.inl rfl⟩)

/-! ## Claim C5: CompleteAndFreeVehicle -/

/-- C5: completing a work order with an authenticated acting user sets the
work order's status to completed with resolved_at = now and resolved_by =
the acting user, and sets the linked vehicle's status to available. -/
theorem c5_complete_and_free (o : WorkOrder) (v : Vehicle) (u now : String)
    (hv : v.id = o.vehicle_id) :
    (handleCompleteWorkOrder o v (some u) now).1.status = .completed ∧
      (handleCompleteWorkOrder o v (some u) now).1.resolved_at = some now ∧
      (handleCompleteWorkOrder o v (some u) now).1.resolved_by = some u ∧
      (handleCompleteWorkOrder o v (some u) now).2.status = .available ∧
      (handleCompleteWorkOrder o v (some u) now).2.id = o.vehicle_id := by
  refine ⟨rfl, rfl, rfl, rfl, ?_⟩
  simpa [handleCompleteWorkOrder, completeWOVehicleUpdate] using hv

/-- C5 witness: the theorem applied to the sample order and its linked
vehicle. -/
theorem c5_complete_and_free_witness :
    (handleCompleteWorkOrder sampleOrder shopVehicle (some "admin-1")
          "t1").1.status = .completed ∧
      (handleCompleteWorkOrder sampleOrder shopVehicle (some "admin-1")
          "t1").1.resolved_at = some "t1" ∧
      (handleCompleteWorkOrder sampleOrder shopVehicle (some "admin-1")
          "t1").1.resolved_by = some "admin-1" ∧
      (handleCompleteWorkOrder sampleOrder shopVehicle (some "admin-1")
          "t1").2.status = .available ∧
      (handleCompleteWorkOrder sampleOrder shopVehicle (some "admin-1")
          "t1").2.id = sampleOrder.vehicle_id :=
  c5_complete_and_free sampleOrder shopVehicle "admin-1" "t1" rfl

/-! ## Claim C6: validation of required side fields before any write -/

/-- C6: the submission validation fails exactly when the required side
field for the target status is missing (assigned with an empty assignee, or
out_of_service with an empty location), and a failed validation issues no
write at all: no vehicle update and no history RPC. -/
theorem c6_validation_blocks (f : VehicleForm) (v : Vehicle) :
    (sideFieldsPresent f = false ↔
      (f.status = .assigned ∧ f.assigned_to = "") ∨
        (f.status = .out_of_service ∧ f.current_location = "")) ∧
    (sideFieldsPresent f = false → submitVehicleUpdate f v = none) := by
  constructor
  · obtain ⟨un, mk, md, yr, st, a, loc, nt⟩ := f
    cases st <;>
      simp [sideFieldsPresent, Bool.and_eq_false_iff, Bool.or_eq_false_iff]
  · intro h
    simp [submitVehicleUpdate, h]

/-- C6 witness: a form asking for status assigned without an assignee fails
validation and produces no writes. -/
theorem c6_validation_blocks_witness :
    submitVehicleUpdate invalidAssignForm shopVehicle = none :=
  (c6_validation_blocks invalidAssignForm shopVehicle).2 (by decide)

/-! ## Claim C7: the row-level authorization policy -/

/-- C7: vehicle insert, update and delete and work-order update are
permitted exactly under is_admin, i.e. exactly when a stored profile with
the requesting id has role admin; every authenticated principal may read
vehicles and insert status-history and work-order rows; an unauthenticated
caller is denied everything. -/
theorem c7_policy_characterization (profiles : List Profile) (u : String) :
    (policyAllows profiles (some u) .vehicles .insert =
        is_admin profiles u) ∧
      (policyAllows profiles (some u) .vehicles .update =
        is_admin profiles u) ∧
      (policyAllows profiles (some u) .vehicles .delete =
        is_admin profiles u) ∧
      (policyAllows profiles (some u) .work_orders .update =
        is_admin profiles u) ∧
      (policyAllows profiles (some u) .vehicles .select = true) ∧
      (policyAllows profiles (some u) .vehicle_status_history .insert =
        true) ∧
      (policyAllows profiles (some u) .work_orders .insert = true) ∧
      (∀ t op, policyAllows profiles none t op = false) ∧
      (is_admin profiles u = true ↔
        ∃ p ∈ profiles, p.id = u ∧ p.role = .admin) := by
  refine ⟨rfl, rfl, rfl, rfl, rfl, rfl, rfl, fun t op => rfl, ?_⟩
  simp [is_admin, List.any_eq_true, Bool.and_eq_true, beq_iff_eq]

/-- C7 witness: the characterization evaluated on a one-admin profile
table. -/
theorem c7_policy_characterization_witness :
    policyAllows [sampleAdminProfile] (some "admin-1") .work_orders .update =
      is_admin [sampleAdminProfile] "admin-1" :=
  (c7_policy_characterization [sampleAdminProfile] "admin-1").2.2.2.1

/-! ## Claim C8: work-order numbers strictly increase over creations -/

/-- C8: creating a work order and then, with the new row present, creating
another gives the second a strictly greater number than the first; the new
number also exceeds every number present at its creation, so numbers are
unique across sequential creations. -/
theorem c8_sequential_numbers (orders : List WorkOrder)
    (v1 v2 u1 u2 j1 j2 : String) (f1 f2 : WorkOrderForm) :
    (createWorkOrder orders v1 f1 u1 j1).work_order_number <
      (createWorkOrder ((createWorkOrder orders v1 f1 u1 j1) :: orders) v2 f2
          u2 j2).work_order_number ∧
    (∀ o ∈ (createWorkOrder orders v1 f1 u1 j1) :: orders,
      o.work_order_number <
        (createWorkOrder ((createWorkOrder orders v1 f1 u1 j1) :: orders) v2
            f2 u2 j2).work_order_number) := by
  have hall :
      ∀ o ∈ (createWorkOrder orders v1 f1 u1 j1) :: orders,
        o.work_order_number <
          (createWorkOrder ((createWorkOrder orders v1 f1 u1 j1) :: orders)
              v2 f2 u2 j2).work_order_number := by
    intro o ho
    have hmem : o.work_order_number ∈
        ((createWorkOrder orders v1 f1 u1 j1) :: orders).map
          fun o => o.work_order_number :=
      List.mem_map_of_mem _ ho
    have := le_foldr_max_of_mem hmem
    simpa [createWorkOrder, lastWorkOrderNumber] using Nat.lt_succ_of_le this
  exact ⟨hall _ (List.mem_cons_self _ _), hall⟩

/-- C8 witness: two sequential creations from the empty table yield
numbers 1 then 2. -/
theorem c8_sequential_numbers_witness :
    (createWorkOrder []
        "veh-1" sampleWOForm "user-1" "wo-1").work_order_number <
      (createWorkOrder
          [createWorkOrder [] "veh-1" sampleWOForm "user-1" "wo-1"] "veh-1"
          sampleWOForm "user-1" "wo-2").work_order_number :=
  (c8_sequential_numbers [] "veh-1" "veh-1" "user-1" "user-1" "wo-1" "wo-2"
      sampleWOForm sampleWOForm).1

/-! ## Claim C9: immutability of vehicle identity fields under update -/

/-- C9 counterexample: the Settings fleet editor's update operation changes
a vehicle's make (and may change unit_number, model, year alike), so not
every update operation leaves unit_number, make, model and year
unchanged. -/
theorem c9_identity_fields_counterexample :
    (settingsUpdateVehicle
          { id := "veh-1", unit_number := "7", make := "Chevrolet",
            model := "Tahoe", year := 2022 } shopVehicle).make ≠
        shopVehicle.make ∧
      (settingsUpdateVehicle
          { id := "veh-1", unit_number := "7", make := "Chevrolet",
            model := "Tahoe", year := 2022 } shopVehicle).year ≠
        shopVehicle.year := by
  decide

/-- C9 (amended): the vehicle-form update (VehicleModal.handleSubmit)
modifies only the status-related fields and leaves unit_number, make, model
and year unchanged; the Settings fleet editor's update (handleUpdateVehicle)
modifies exactly unit_number, make, model and year and leaves the
status-related fields unchanged, so those four fields are not immutable
across all update operations. -/
theorem c9_update_frames (f : VehicleForm) (e : SettingsVehicle)
    (v : Vehicle) :
    ((applyVehicleModalUpdate f v).unit_number = v.unit_number ∧
        (applyVehicleModalUpdate f v).make = v.make ∧
        (applyVehicleModalUpdate f v).model = v.model ∧
        (applyVehicleModalUpdate f v).year = v.year ∧
        (applyVehicleModalUpdate f v).id = v.id) ∧
      ((settingsUpdateVehicle e v).status = v.status ∧
        (settingsUpdateVehicle e v).assigned_to = v.assigned_to ∧
        (settingsUpdateVehicle e v).current_location = v.current_location ∧
        (settingsUpdateVehicle e v).notes = v.notes ∧
        (settingsUpdateVehicle e v).id = v.id) :=
  ⟨⟨rfl, rfl, rfl, rfl, rfl⟩, rfl, rfl, rfl, rfl, rfl⟩

/-! ## Claim C10: the auth-store isAdmin invariant -/

/-- C10: setProfile establishes the invariant that isAdmin holds exactly
when the stored profile has role admin, for any argument including null;
setSession changes neither profile nor isAdmin and so preserves the
invariant; signOut clears session, profile and isAdmin together and the
cleared state satisfies the invariant; the initial state satisfies it
too. -/
theorem c10_auth_store_invariant (st : AuthState) (p : Option Profile)
    (s : Option String) :
    authStoreInvariant (authSetProfile p st) ∧
      ((authSetSession s st).profile = st.profile ∧
        (authSetSession s st).isAdmin = st.isAdmin) ∧
      (authStoreInvariant st → authStoreInvariant (authSetSession s st)) ∧
      ((authSignOut st).session = none ∧ (authSignOut st).profile = none ∧
        (authSignOut st).isAdmin = false ∧
        authStoreInvariant (authSignOut st)) ∧
      authStoreInvariant authInitialState := by
  refine ⟨?_, ⟨rfl, rfl⟩, ?_, ⟨rfl, rfl, rfl, ?_⟩, ?_⟩
  · cases p with
    | none => simp [authSetProfile, authStoreInvariant]
    | some q => simp [authSetProfile, authStoreInvariant, beq_iff_eq]
  · intro h
    simpa [authSetSession, authStoreInvariant] using h
  · simp [authSignOut, authStoreInvariant]
  · simp [authInitialState, authStoreInvariant]

/-- C10 witness: the invariant holds after storing an admin profile into
the initial state, via the theorem. -/
theorem c10_auth_store_invariant_witness :
    authStoreInvariant
      (authSetProfile (some sampleAdminProfile) authInitialState) :=
  (c10_auth_store_invariant authInitialState (some sampleAdminProfile)
      none).1

end Fleet
